import Mathlib

/-!
Verification of the Madellang real-time voice-translation client against its
specification.  The definitions below are shallow embeddings of the TypeScript
source: React state is explicit state passing, WebSocket traffic is a list of
outbound messages, and audio blobs are identified by natural numbers.
-/

namespace Madellang

/-! ### Control messages of the room connection
Embedding of the `WebSocketMessage` union type,
`frontend/src/hooks/useRoomConnection.ts` lines 35-41 (the second
implementation, lines 426-431, is identical except for the missing `pong`
member, which its switch never matches anyway). -/

inductive WsMessage where
  | translatedAudio (audio : List Nat)
  | connectionEstablished (roomId : String) (userId : String)
  | userJoined (userId : String)
  | userLeft (userId : String)
  | errorMsg (message : String)
  | pong
  deriving DecidableEq, Repr

/-- The literal value of the `type` discriminant field of each message. -/
def WsMessage.msgType : WsMessage → String
  | .translatedAudio _ => "translated_audio"
  | .connectionEstablished _ _ => "connection_established"
  | .userJoined _ => "user_joined"
  | .userLeft _ => "user_left"
  | .errorMsg _ => "error"
  | .pong => "pong"

/-- The `RoomState` record of `useRoomConnection.ts` lines 43-48. -/
structure RoomState where
  status : String
  participants : List String
  currentRoom : Option String
  error : Option String
  deriving DecidableEq, Repr

/-- Initial room state, `useRoomConnection.ts` lines 60-65. -/
def initialRoomState : RoomState :=
  { status := "disconnected", participants := [], currentRoom := none, error := none }

/-- Side effects the `onmessage` handler can request besides updating the
React room state. -/
inductive HandlerEffect where
  | deliverTranslatedAudio (audio : List Nat)
  | closeSocket
  deriving DecidableEq, Repr

/-- The `socket.onmessage` switch over parsed JSON messages,
`useRoomConnection.ts` lines 202-243 (the second implementation, lines
512-549, performs the same state updates). -/
def handleRoomMessage (st : RoomState) : WsMessage → RoomState × List HandlerEffect
  | .connectionEstablished roomId _ => ({ st with currentRoom := some roomId }, [])
  | .pong => (st, [])
  | .userJoined uid => ({ st with participants := st.participants ++ [uid] }, [])
  | .userLeft uid => ({ st with participants := st.participants.filter (fun i => i ≠ uid) }, [])
  | .errorMsg m => ({ st with error := some m }, [])
  | .translatedAudio a => (st, [.deliverTranslatedAudio a])

/-- Message kinds appearing in `JSON.stringify({ type: ... })` sends of the
client: `useRoomConnection.ts` lines 150 and 185 send `ping`, and
`TranslationService.changeLanguage` (lines 232-235) sends `change_language`. -/
def clientSentKinds : List String := ["ping", "change_language"]

/-- The set of control-message kinds named by the specification (§6). -/
def claimedControlKinds : List String :=
  ["ping", "pong", "change_language", "connection_established",
   "participants_update", "error"]

/-- The case labels of the `onmessage` switch in `useRoomConnection.ts`
lines 202-243: the kinds the room-connection handler acts upon. -/
def roomHandledKinds : List String :=
  ["connection_established", "pong", "user_joined", "user_left", "error",
   "translated_audio"]

/-- The kinds matched by `TranslationService.handleMessage`
(`TranslationService.ts` lines 125-140). -/
def tsHandledKinds : List String := ["connected", "error", "language_changed"]

/-! ### Participant tracking (claim C2)
The `user_joined` / `user_left` cases of the `onmessage` switch append the
identifier to, respectively filter it out of, `roomState.participants`
(`useRoomConnection.ts` lines 214-226 and 520-531). -/

/-- A join or leave notification received over the socket. -/
inductive RoomEvent where
  | joined (uid : String)
  | left (uid : String)
  deriving DecidableEq, Repr

/-- Effect of one notification on the tracked participant list: the
`user_joined` case appends, the `user_left` case filters out every
occurrence of the identifier. -/
def applyRoomEvent (ps : List String) : RoomEvent → List String
  | .joined u => ps ++ [u]
  | .left u => ps.filter (fun i => i ≠ u)

/-- The participant list after a sequence of notifications. -/
def applyRoomEvents (ps : List String) (es : List RoomEvent) : List String :=
  es.foldl applyRoomEvent ps

/-- Specification-side live membership: starting from membership `b`, the
identifier `u` is live after the event sequence exactly when the last
event concerning `u` is a join (it has joined and not yet left). -/
def liveAfter (b : Bool) (u : String) : List RoomEvent → Bool
  | [] => b
  | .joined v :: es => liveAfter (if v = u then true else b) u es
  | .left v :: es => liveAfter (if v = u then false else b) u es

/-! ### Audio playback queue (claim C3)
Embedding of `useAudioPlayback` (`src/unnamed/part_021`): `enqueueAudio`
(lines 93-101) pushes a blob onto the back of `audioQueueRef`, and
`processQueue` (lines 77-90) — unless the re-entrancy guard
`isProcessingRef` is set — shifts the front blob off the queue and plays
it.  Blobs are identified by natural numbers; `played` records the blobs
handed to `playAudioBlob` in dequeue order. -/

structure AudioQueueState where
  queue : List Nat
  played : List Nat
  isProcessing : Bool
  deriving DecidableEq, Repr

/-- `enqueueAudio`: push the blob onto the back of the queue. -/
def enqueueAudio (st : AudioQueueState) (b : Nat) : AudioQueueState :=
  { st with queue := st.queue ++ [b] }

/-- `processQueue`: if the guard is clear and the queue is non-empty, shift
the front blob and play it. -/
def processQueue (st : AudioQueueState) : AudioQueueState :=
  if st.isProcessing then st
  else
    match st.queue with
    | [] => st
    | b :: rest => { queue := rest, played := st.played ++ [b], isProcessing := false }

/-- One interaction with the playback queue. -/
inductive QueueOp where
  | enqueue (b : Nat)
  | process
  deriving DecidableEq, Repr

/-- Run a sequence of queue interactions. -/
def runQueueOps (st : AudioQueueState) : List QueueOp → AudioQueueState
  | [] => st
  | .enqueue b :: ops => runQueueOps (enqueueAudio st b) ops
  | .process :: ops => runQueueOps (processQueue st) ops

/-- The blobs enqueued by a sequence of interactions, in order. -/
def enqueuedOf : List QueueOp → List Nat
  | [] => []
  | .enqueue b :: ops => b :: enqueuedOf ops
  | .process :: ops => enqueuedOf ops

/-- The empty playback queue. -/
def emptyQueueState : AudioQueueState :=
  { queue := [], played := [], isProcessing := false }

/-! ### Mirror-mode (echo) toggle on the client (claim C4)
Embedding of `Index.toggleEchoMode` (`src/unnamed/part_011` lines 158-195).
`echo` is the React state set through `setIsEcho`, `buttonSet` is whether
`buttonEcho.current` is non-null, `serverMirror` is the backend flag the
two fetches target, and `disableOk` / `enableOk` are the `response.ok`
results of the respective requests. -/

structure EchoClientState where
  echo : Bool
  buttonSet : Bool
  buttonColor : Option String
  serverMirror : Bool
  deriving DecidableEq, Repr

/-- The tail of `toggleEchoMode`: the fetch of
`/toggle-mirror-mode?enabled=True`; on success the flag and the button
colour are set only when the button ref is non-null. -/
def echoEnableRequest (st : EchoClientState) (enableOk : Bool) : EchoClientState :=
  if enableOk then
    let st1 := { st with serverMirror := true }
    if st1.buttonSet then { st1 with echo := true, buttonColor := some "lightblue" }
    else st1
  else st

/-- `toggleEchoMode`: when `echo` is set, request disable and clear the
flag, returning early only when the button ref is non-null — otherwise the
code falls through to the enable request, which also runs when `echo` was
clear. -/
def toggleEchoMode (st : EchoClientState) (disableOk enableOk : Bool) : EchoClientState :=
  if st.echo then
    let st1 := if disableOk then { st with serverMirror := false } else st
    let st2 := { st1 with echo := false }
    if st2.buttonSet then { st2 with buttonColor := some "gray" }
    else echoEnableRequest st2 enableOk
  else echoEnableRequest st enableOk

/-! ### Backend audio ingest and mirror mode (claim C5) -/

/-- Effects an ingest can produce. -/
inductive IngestEffect where
  | echoToSender (sessionId : String) (frame : List Nat)
  deriving DecidableEq, Repr

/-- Per-session audio accumulators, as an association list. -/
def bufAppend (bufs : List (String × List Nat)) (sid : String) (frame : List Nat) :
    List (String × List Nat) :=
  match bufs with
  | [] => [(sid, frame)]
  | (s, acc) :: rest =>
    if s = sid then (s, acc ++ frame) :: rest else (s, acc) :: bufAppend rest sid frame

/-- Modelled from the spec: the backend Audio Buffer & Segmenter and the
mirror-mode flag (`audio_processor.py` / `main.py` named by the backend
README) are not present under src/; this state follows §3
(process-wide `mirrorModeEnabled`) and §4.3 (per-session accumulators,
collaborator invocation counters for the STT / MT / TTS stages). -/
structure BackendState where
  mirrorModeEnabled : Bool
  sttCalls : Nat
  mtCalls : Nat
  ttsCalls : Nat
  buffers : List (String × List Nat)
  deriving DecidableEq, Repr

/-- Modelled from the spec: §4.3 `ingest(sessionId, frame)` — if mirror
mode is enabled the frame is echoed immediately to the sending session,
bypassing the translation path and invoking no collaborator; otherwise
the frame is appended to the session accumulator (translation path). -/
def ingest (st : BackendState) (sid : String) (frame : List Nat) :
    BackendState × List IngestEffect :=
  if st.mirrorModeEnabled then (st, [.echoToSender sid frame])
  else ({ st with buffers := bufAppend st.buffers sid frame }, [])

/-- Modelled from the spec: §6 mirror-mode toggle — an administrative
request with a boolean parameter setting the process-wide flag and
returning the resulting state. -/
def toggleMirror (st : BackendState) (enabled : Bool) : BackendState × Bool :=
  ({ st with mirrorModeEnabled := enabled }, enabled)

/-! ### Room creation (claim C6)
Embedding of `createRoom` (`src/ORGANDONOR/src/utils/room.ts` lines 4-9):
the room id is `uuidv4().substring(0, 8)`.  The freshly drawn UUID and
`window.location.origin` are passed in as inputs from the environment. -/

structure RoomData where
  id : String
  url : String
  deriving DecidableEq, Repr

/-- `createRoom`: truncate the generated UUID to its first 8 characters. -/
def createRoom (uuid : String) (origin : String) : RoomData :=
  { id := (uuid.toList.take 8).asString,
    url := origin ++ "?room=" ++ (uuid.toList.take 8).asString }

/-! ### TranslationService (claims C7, C8)
Embedding of the mutable fields of `TranslationService`
(`TranslationService.ts` lines 24-32) that its message handling and
`changeLanguage` touch. -/

structure TSState where
  connected : Bool
  hasSocket : Bool
  userId : Option String
  roomId : Option String
  targetLanguage : String
  recording : Bool
  deriving DecidableEq, Repr

/-- A structured message sent by the service over the socket. -/
inductive OutMsg where
  | changeLanguage (language : String)
  deriving DecidableEq, Repr

/-- `TranslationService.changeLanguage` (lines 227-236): when not connected
or without a socket, return without sending; otherwise send a single
`change_language` message.  No field of the service is written. -/
def tsChangeLanguage (st : TSState) (language : String) : TSState × List OutMsg :=
  if st.connected && st.hasSocket then (st, [.changeLanguage language])
  else (st, [])

/-- A textual message parsed by `TranslationService.handleMessage`. -/
inductive TSInMsg where
  | connectedMsg (userId : String)
  | errorMsg (message : String)
  | languageChanged (language : String)
  | other (msgType : String)
  deriving DecidableEq, Repr

/-- Callbacks and emitter events `handleMessage` can fire. -/
inductive TSEvent where
  | onConnected (userId : String)
  | onError (message : String)
  | emitLanguageChanged (language : String)
  | emitMessage
  | closeSocket
  deriving DecidableEq, Repr

/-- `TranslationService.handleMessage`, textual branch (lines 121-147):
`connected` stores the user id, `error` invokes the error callback with
the carried message, `language_changed` stores the new target language;
every parsed message is re-emitted as a `message` event, and the handler
never closes the socket. -/
def handleTsMessage (st : TSState) : TSInMsg → TSState × List TSEvent
  | .connectedMsg uid =>
    ({ st with userId := some uid }, [.onConnected uid, .emitMessage])
  | .errorMsg m => (st, [.onError m, .emitMessage])
  | .languageChanged l =>
    ({ st with targetLanguage := l }, [.emitLanguageChanged l, .emitMessage])
  | .other _ => (st, [.emitMessage])

/-! ### Microphone data events (claim C9) -/

/-- `mediaRecorder.ondataavailable` in `useRoomConnection.startMicrophone`
(lines 291-300): a chunk of positive size is pushed onto `audioChunksRef`,
and sent exactly when the socket ref is non-null and its `readyState` is
`OPEN`.  Returns the chunk list and whether `socket.send` ran. -/
def onDataAvailable (chunks : List Nat) (size : Nat) (socketExists socketOpen : Bool) :
    List Nat × Bool :=
  if size > 0 then (chunks ++ [size], socketExists && socketOpen)
  else (chunks, false)

/-- `mediaRecorder.ondataavailable` in `TranslationService.startRecording`
(lines 185-189): the chunk is sent exactly when its size is positive, the
socket field is non-null and the service is connected. -/
def tsOnDataAvailable (size : Nat) (hasSocket connected : Bool) : Bool :=
  if size > 0 then hasSocket && connected else false

/-! ### Muted playback (claim C10) -/

/-- `Index.onTranslatedAudio` (`src/unnamed/part_011` lines 35-46): a
speaking-state reset is always scheduled, and the blob is enqueued for
playback exactly when `isMuted` is false.  Returns (reset scheduled,
resulting playback queue). -/
def onTranslatedAudio (isMuted : Bool) (queue : List Nat) (blob : Nat) :
    Bool × List Nat :=
  (true, if isMuted then queue else queue ++ [blob])

/-! ## Theorems -/

/-- Claim C1, counterexample: the room-connection `onmessage` switch acts
upon (changes state for) a message of kind `user_joined`, a kind outside
the set named by the specification. -/
theorem some_handled_kind_outside_claimed_set :
    WsMessage.msgType (.userJoined "u1") ∉ claimedControlKinds ∧
    handleRoomMessage initialRoomState (.userJoined "u1") ≠ (initialRoomState, []) := by
  decide

/-- Claim C1 (amended): the kinds the client sends (`ping`,
`change_language`) lie inside the claimed set, and every message the
room-connection switch handles has a kind in
{`connection_established`, `pong`, `user_joined`, `user_left`, `error`,
`translated_audio`} — a set that is not contained in the claimed one
(`user_joined`, `user_left` and `translated_audio` fall outside it, as do
`connected` and `language_changed` handled by the translation service) —
while `participants_update`, though claimed, is handled by neither. -/
theorem handled_control_kinds_characterized :
    (clientSentKinds.all (fun k => claimedControlKinds.contains k) = true) ∧
    (∀ m : WsMessage, m.msgType ∈ roomHandledKinds) ∧
    ("user_joined" ∈ roomHandledKinds ∧ "user_joined" ∉ claimedControlKinds) ∧
    ("translated_audio" ∈ roomHandledKinds ∧ "translated_audio" ∉ claimedControlKinds) ∧
    ("connected" ∈ tsHandledKinds ∧ "connected" ∉ claimedControlKinds) ∧
    ("participants_update" ∉ roomHandledKinds ∧ "participants_update" ∉ tsHandledKinds) := by
  refine ⟨by decide, ?_, by decide, by decide, by decide, by decide⟩
  intro m
  cases m <;> simp [WsMessage.msgType, roomHandledKinds]

/-- Membership in the tracked participant list after any notification
sequence, started from any list, coincides with the spec-side live
membership started from the corresponding initial membership. -/
theorem mem_applyRoomEvents (es : List RoomEvent) :
    ∀ (ps : List String) (u : String),
      u ∈ applyRoomEvents ps es ↔ liveAfter (decide (u ∈ ps)) u es = true := by
  induction es with
  | nil =>
    intro ps u
    simp [applyRoomEvents, liveAfter]
  | cons e es ih =>
    intro ps u
    cases e with
    | joined v =>
      have hb : (if v = u then true else decide (u ∈ ps)) = decide (u ∈ ps ++ [v]) := by
        rcases eq_or_ne v u with hv | hv
        · subst hv; simp
        · simp [hv, Ne.symm hv]
      show u ∈ applyRoomEvents (ps ++ [v]) es ↔
          liveAfter (if v = u then true else decide (u ∈ ps)) u es = true
      rw [hb]
      exact ih (ps ++ [v]) u
    | left v =>
      have hb : (if v = u then false else decide (u ∈ ps)) =
          decide (u ∈ ps.filter (fun i => i ≠ v)) := by
        rcases eq_or_ne v u with hv | hv
        · subst hv; simp
        · simp [hv, Ne.symm hv]
      show u ∈ applyRoomEvents (ps.filter (fun i => i ≠ v)) es ↔
          liveAfter (if v = u then false else decide (u ∈ ps)) u es = true
      rw [hb]
      exact ih (ps.filter (fun i => i ≠ v)) u

/-- Claim C2: for every sequence of join/leave notifications applied to the
initially empty participant list, an identifier is in the tracked list
exactly when it has joined and not yet left (its last notification is a
join) — so the reported membership never falls outside the live
membership, duplicates included. -/
theorem participants_track_live_membership (es : List RoomEvent) (u : String) :
    u ∈ applyRoomEvents [] es ↔ liveAfter false u es = true := by
  simpa using mem_applyRoomEvents es [] u

/-- Playback order is the enqueue order: the played prefix followed by the
still-pending queue restores the full enqueue sequence, from any start. -/
theorem runQueueOps_played_append_queue (ops : List QueueOp) :
    ∀ st : AudioQueueState,
      (runQueueOps st ops).played ++ (runQueueOps st ops).queue =
        st.played ++ (st.queue ++ enqueuedOf ops) := by
  induction ops with
  | nil => intro st; simp [runQueueOps, enqueuedOf]
  | cons op ops ih =>
    intro st
    cases op with
    | enqueue b =>
      have h := ih (enqueueAudio st b)
      simpa [runQueueOps, enqueuedOf, enqueueAudio] using h
    | process =>
      have h := ih (processQueue st)
      by_cases hp : st.isProcessing
      · simpa [runQueueOps, enqueuedOf, processQueue, hp] using h
      · cases hq : st.queue with
        | nil => simpa [runQueueOps, enqueuedOf, processQueue, hp, hq] using h
        | cons b rest => simpa [runQueueOps, enqueuedOf, processQueue, hp, hq] using h

/-- Claim C3: the result queue is strictly FIFO — for every interaction
sequence starting from the empty queue, the blobs handed to playback, in
dequeue order, followed by the blobs still pending, equal exactly the
blobs in enqueue order; hence a blob enqueued earlier is dequeued no later
than one enqueued after it. -/
theorem playback_queue_is_fifo (ops : List QueueOp) :
    (runQueueOps emptyQueueState ops).played ++ (runQueueOps emptyQueueState ops).queue =
      enqueuedOf ops := by
  simpa [emptyQueueState] using runQueueOps_played_append_queue ops emptyQueueState

/-- Claim C4, counterexample: with the echo flag disabled and the button
element reference unset, invoking the toggle leaves the flag disabled even
though both requests succeed — the toggle does not flip the state. -/
theorem toggle_echo_fails_to_flip_without_button_ref :
    (toggleEchoMode
      { echo := false, buttonSet := false, buttonColor := none, serverMirror := false }
      true true).echo ≠ !false := by
  decide

/-- Claim C4 (amended): the toggle sets the client echo flag to false
whenever the prior state was enabled; when the prior state was disabled it
enables the flag exactly when the enable request succeeds and the button
element reference is set, and otherwise leaves it disabled. -/
theorem toggle_echo_flip_characterized (st : EchoClientState) (disableOk enableOk : Bool) :
    (toggleEchoMode st disableOk enableOk).echo = (!st.echo && enableOk && st.buttonSet) := by
  rcases st with ⟨e, b, c, s⟩
  cases e <;> cases b <;> cases disableOk <;> cases enableOk <;>
    simp [toggleEchoMode, echoEnableRequest]

/-- Claim C5: with mirror mode enabled, every ingest echoes the frame back
to the sending session with no state change (in particular no collaborator
counter moves and nothing is buffered); with it disabled — also right
after the disabling toggle — the ingest produces no echo and follows the
translation path, appending the frame to the session accumulator. -/
theorem mirror_mode_ingest_echoes (st : BackendState) (sid : String) (frame : List Nat) :
    (st.mirrorModeEnabled = true →
      ingest st sid frame = (st, [.echoToSender sid frame])) ∧
    (st.mirrorModeEnabled = false →
      ingest st sid frame = ({ st with buffers := bufAppend st.buffers sid frame }, [])) ∧
    ((ingest ((toggleMirror st false).1) sid frame).2 = [] ∧
      (ingest ((toggleMirror st false).1) sid frame).1.buffers =
        bufAppend st.buffers sid frame) := by
  refine ⟨fun h => ?_, fun h => ?_, ?_⟩
  · simp [ingest, h]
  · simp [ingest, h]
  · simp [ingest, toggleMirror]

/-- Witness for claim C5 at concrete backend states: the fields are
mirrorModeEnabled, sttCalls, mtCalls, ttsCalls, buffers. -/
theorem mirror_mode_ingest_echoes_witness :
    ingest ⟨true, 0, 0, 0, []⟩ "s1" [1, 2] =
      (⟨true, 0, 0, 0, []⟩, [.echoToSender "s1" [1, 2]]) ∧
    ingest ⟨false, 0, 0, 0, []⟩ "s1" [1, 2] =
      (⟨false, 0, 0, 0, [("s1", [1, 2])]⟩, []) :=
  ⟨(mirror_mode_ingest_echoes ⟨true, 0, 0, 0, []⟩ "s1" [1, 2]).1 rfl,
   (mirror_mode_ingest_echoes ⟨false, 0, 0, 0, []⟩ "s1" [1, 2]).2.1 rfl⟩

/-- Claim C6, counterexample: two distinct freshly generated UUIDs that
agree on their first eight characters yield the same room identifier, so a
later invocation can return an identifier equal to an earlier one. -/
theorem truncated_uuid_room_ids_collide :
    "12345678-aaaa-4bbb-8ccc-000000000000" ≠ "12345678-dddd-4eee-9fff-111111111111" ∧
    (createRoom "12345678-aaaa-4bbb-8ccc-000000000000" "http://localhost:8080").id =
      (createRoom "12345678-dddd-4eee-9fff-111111111111" "http://localhost:8080").id := by
  decide

/-- Claim C6 (amended): room creation always succeeds, returning the first
eight characters of the generated UUID; identifiers from two invocations
coincide exactly when the generated UUIDs agree on their first eight
characters — distinctness of the full UUIDs alone does not guarantee
distinct room identifiers. -/
theorem room_id_collision_characterized (u1 u2 o1 o2 : String) :
    (createRoom u1 o1).id = (createRoom u2 o2).id ↔ u1.toList.take 8 = u2.toList.take 8 := by
  simp [createRoom]

/-- Claim C7: when connected with a live socket, `changeLanguage` sends
exactly one `change_language` control message carrying the language and
leaves every field of the service unchanged; when not connected (or
without a socket) it sends nothing and changes nothing; the stored target
language is written only by the `language_changed` confirmation, which
touches no other field. -/
theorem change_language_frame_effect (st : TSState) (lang : String) :
    (st.connected = true → st.hasSocket = true →
      tsChangeLanguage st lang = (st, [.changeLanguage lang])) ∧
    (st.connected = false ∨ st.hasSocket = false →
      tsChangeLanguage st lang = (st, [])) ∧
    (∀ l : String,
      (handleTsMessage st (.languageChanged l)).1.targetLanguage = l ∧
      (handleTsMessage st (.languageChanged l)).1.connected = st.connected ∧
      (handleTsMessage st (.languageChanged l)).1.hasSocket = st.hasSocket ∧
      (handleTsMessage st (.languageChanged l)).1.userId = st.userId ∧
      (handleTsMessage st (.languageChanged l)).1.roomId = st.roomId ∧
      (handleTsMessage st (.languageChanged l)).1.recording = st.recording) := by
  refine ⟨fun h1 h2 => ?_, fun h => ?_, fun l => ?_⟩
  · simp [tsChangeLanguage, h1, h2]
  · rcases h with h | h <;> simp [tsChangeLanguage, h]
  · simp [handleTsMessage]

/-- Witness for claim C7 at concrete service states: the fields are
connected, hasSocket, userId, roomId, targetLanguage, recording. -/
theorem change_language_frame_effect_witness :
    tsChangeLanguage ⟨true, true, none, some "r1", "en", false⟩ "es" =
      (⟨true, true, none, some "r1", "en", false⟩, [.changeLanguage "es"]) ∧
    tsChangeLanguage ⟨false, false, none, none, "en", false⟩ "es" =
      (⟨false, false, none, none, "en", false⟩, []) :=
  ⟨(change_language_frame_effect ⟨true, true, none, some "r1", "en", false⟩ "es").1 rfl rfl,
   (change_language_frame_effect ⟨false, false, none, none, "en", false⟩ "es").2.1 (Or.inl rfl)⟩

/-- Claim C8: an incoming `error` control message only records the carried
message (room state) or invokes the error callback (translation service);
every other field is preserved, and neither handler requests the socket be
closed — the connection stays open. -/
theorem error_message_surfaced_connection_kept
    (st : RoomState) (st2 : TSState) (m : String) :
    (handleRoomMessage st (.errorMsg m)).1.error = some m ∧
    (handleRoomMessage st (.errorMsg m)).1.status = st.status ∧
    (handleRoomMessage st (.errorMsg m)).1.participants = st.participants ∧
    (handleRoomMessage st (.errorMsg m)).1.currentRoom = st.currentRoom ∧
    (handleRoomMessage st (.errorMsg m)).2 = [] ∧
    (handleTsMessage st2 (.errorMsg m)).1 = st2 ∧
    TSEvent.onError m ∈ (handleTsMessage st2 (.errorMsg m)).2 ∧
    TSEvent.closeSocket ∉ (handleTsMessage st2 (.errorMsg m)).2 := by
  simp [handleRoomMessage, handleTsMessage]

/-- Claim C9: a recorder data event results in a send exactly when the
chunk size is positive, the socket reference is non-null and the socket is
open (room-connection recorder), respectively the service is connected
(translation-service recorder). -/
theorem audio_chunk_send_guard (c : List Nat) (size : Nat) (se so hs cn : Bool) :
    ((onDataAvailable c size se so).2 = true ↔ 0 < size ∧ se = true ∧ so = true) ∧
    (tsOnDataAvailable size hs cn = true ↔ 0 < size ∧ hs = true ∧ cn = true) := by
  rcases Nat.eq_zero_or_pos size with h | h
  · subst h
    simp [onDataAvailable, tsOnDataAvailable]
  · constructor
    · simp [onDataAvailable, h, and_assoc]
    · simp [tsOnDataAvailable, h, and_assoc]

/-- Claim C10: on receipt of a translated-audio blob the speaking-state
reset is always scheduled, and the blob joins the playback queue exactly
when the mute flag is false — while muted the blob is dropped. -/
theorem muted_audio_dropped (m : Bool) (q : List Nat) (b : Nat) :
    (onTranslatedAudio m q b).1 = true ∧
    ((onTranslatedAudio m q b).2 = q ++ [b] ↔ m = false) ∧
    ((onTranslatedAudio m q b).2 = q ↔ m = true) := by
  cases m <;> simp [onTranslatedAudio]

end Madellang
